import Mathlib

/-!
Verification of the future/promise runtime described by the specification of
the CppConcurrency repository.  The repository demonstrates the C++ standard
asynchronous providers (std promise / packaged_task / async) through a driver
program (src/async/promise_future.cpp) and a thread-pool snippet; the shared
state machinery itself lives in the standard library, so it is modelled here
from the specification, while the driver program and the pool queue are
embedded from the source.
-/

namespace CppConcurrency

/-- Modelled from the spec: the closed failure-kind enumeration of section 7
(error taxonomy).  It covers both the synchronous usage errors and the
failures stored in a shared state slot; a callable-raised failure carries an
opaque payload, modelled as a natural number. -/
inductive FailureKind where
  | AlreadySatisfied
  | ReaderAlreadyRetrieved
  | AlreadyInvoked
  | BrokenWriter
  | CallableFailure (payload : Nat)
deriving DecidableEq, Repr

/-- Modelled from the spec: the slot attribute of SharedState, holding
absent, a value, or a failure. -/
inductive Slot (T : Type) where
  | absent
  | value (v : T)
  | failure (e : FailureKind)
deriving DecidableEq, Repr

/-- Modelled from the spec: an outcome written through a writer handle,
either a value or a failure. -/
inductive Outcome (T : Type) where
  | value (v : T)
  | failure (e : FailureKind)
deriving DecidableEq, Repr

def Outcome.toSlot {T : Type} : Outcome T → Slot T
  | .value v => .value v
  | .failure e => .failure e

/-- Modelled from the spec: SharedState of section 3, the synchronization
primitive holding the eventual result or failure.  The mutex, the
condition-signal and the reference count guard concurrent access and
lifetime and have no observable effect on the sequential transitions the
claims are about, so they are not represented; the slot, the ready flag and
the readerTaken flag are. -/
structure SharedState (T : Type) where
  slot : Slot T
  ready : Bool
  readerTaken : Bool
deriving DecidableEq, Repr

/-- Modelled from the spec: a SharedState as created together with its
ResultWriter at submission time: nothing stored, not ready, no reader
retrieved yet. -/
def SharedState.init (T : Type) : SharedState T :=
  { slot := .absent, ready := false, readerTaken := false }

/-- Modelled from the spec: write stores value-or-failure and sets ready;
it fails with AlreadySatisfied if called twice (section 4.1). -/
def SharedState.write {T : Type} (s : SharedState T) (o : Outcome T) :
    Except FailureKind (SharedState T) :=
  if s.ready then .error .AlreadySatisfied
  else .ok { s with slot := o.toSlot, ready := true }

/-- Modelled from the spec: take returns the stored outcome, re-raising a
stored failure; it is valid only after ready, so a call on a state that is
not ready (which would block) is mapped to none. -/
def SharedState.take {T : Type} (s : SharedState T) : Option (Except FailureKind T) :=
  if s.ready then
    match s.slot with
    | .value v => some (.ok v)
    | .failure e => some (.error e)
    | .absent => none
  else none

/-- Modelled from the spec: the writer handle.  Exactly one live writer
references a SharedState; a move transfers the reference, leaving the
moved-from handle without one. -/
structure ResultWriter where
  hasState : Bool
deriving DecidableEq, Repr

/-- Modelled from the spec: a freshly constructed writer owning its state. -/
def ResultWriter.fresh : ResultWriter := { hasState := true }

/-- Modelled from the spec: move construction of a writer (as in the Case 4
and Case 5 demonstrations): the source loses its reference, the destination
acquires it.  Returns (moved-from, moved-to). -/
def ResultWriter.move (w : ResultWriter) : ResultWriter × ResultWriter :=
  ({ hasState := false }, { hasState := w.hasState })

/-- Modelled from the spec: setValue writes a value outcome, failing with
AlreadySatisfied if the state was already written (section 4.2).  A call
through a handle holding no state reference is undefined and mapped to
none. -/
def ResultWriter.setValue {T : Type} (w : ResultWriter) (s : SharedState T) (v : T) :
    Option (Except FailureKind (SharedState T)) :=
  if w.hasState then some (s.write (.value v)) else none

/-- Modelled from the spec: setFailure writes a failure outcome, with the
same AlreadySatisfied failure mode as setValue. -/
def ResultWriter.setFailure {T : Type} (w : ResultWriter) (s : SharedState T)
    (e : FailureKind) : Option (Except FailureKind (SharedState T)) :=
  if w.hasState then some (s.write (.failure e)) else none

/-- Modelled from the spec: getReader returns the associated reader, failing
with ReaderAlreadyRetrieved if called more than once for this writer
(section 4.2); the readerTaken flag transitions false to true exactly
once. -/
def SharedState.getReader {T : Type} (s : SharedState T) :
    Except FailureKind (SharedState T) :=
  if s.readerTaken then .error .ReaderAlreadyRetrieved
  else .ok { s with readerTaken := true }

/-- Modelled from the spec: destruction of a writer (section 4.2).  While
Active (a reader was retrieved) and not Satisfied it performs the abandon
transition, writing a BrokenWriter failure and marking the state ready;
while Inactive or Satisfied it is a no-op.  A moved-from handle holds no
state and is also a no-op. -/
def ResultWriter.destroy {T : Type} (w : ResultWriter) (s : SharedState T) :
    SharedState T :=
  if w.hasState && s.readerTaken && !s.ready then
    { s with slot := .failure .BrokenWriter, ready := true }
  else s

/-- Modelled from the spec: the round-trip scenario of Case 4 without the
move: construct a writer and its state, retrieve the reader, set a value,
then get it back through the reader. -/
def roundTrip {T : Type} (v : T) : Option (Except FailureKind T) :=
  match (SharedState.init T).getReader with
  | .error _ => none
  | .ok s1 =>
    match ResultWriter.fresh.setValue s1 v with
    | none => none
    | some (.error _) => none
    | some (.ok s2) => s2.take

/-- The test driver of src/async/promise_future.cpp (also Case 4 of the
demonstration notes), generalised over the written value: a promise pr is
constructed, fut is retrieved via get_future, pr is moved into pr2 inside an
inner scope, pr2.set_value is called, pr2 is destroyed at the end of the
inner scope, and finally fut.get() is evaluated. -/
def moveScenario (v : Int) : Option (Except FailureKind Int) :=
  let pr := ResultWriter.fresh
  match (SharedState.init Int).getReader with
  | .error _ => none
  | .ok s1 =>
    match pr.move with
    | (prMoved, pr2) =>
      match pr2.setValue s1 v with
      | none => none
      | some (.error _) => none
      | some (.ok s2) =>
        let s3 := pr2.destroy s2
        let s4 := prMoved.destroy s3
        s4.take

/-- Modelled from the spec: TaskCell of section 3, a zero-argument callable
(returning a value or raising a failure payload) bound to a writer, with an
idempotence guard; execCount records how many times the callable has
actually been run, so that laziness and exactly-once execution are
observable in the model. -/
structure TaskCell (T : Type) where
  callable : Unit → Except Nat T
  invoked : Bool
  execCount : Nat

/-- Modelled from the spec: invoke (section 4.4) calls the wrapped callable;
on normal return it stores the value through its writer, on a raised
failure it stores CallableFailure through setFailure — the failure is not
propagated at invocation time.  A second invoke fails with
AlreadyInvoked. -/
def TaskCell.invoke {T : Type} (tc : TaskCell T) (s : SharedState T) :
    Except FailureKind (TaskCell T × SharedState T) :=
  if tc.invoked then .error .AlreadyInvoked
  else
    let tc2 : TaskCell T :=
      { tc with invoked := true, execCount := tc.execCount + 1 }
    match tc.callable () with
    | .ok v =>
      match s.write (.value v) with
      | .ok s2 => .ok (tc2, s2)
      | .error err => .error err
    | .error p =>
      match s.write (.failure (.CallableFailure p)) with
      | .ok s2 => .ok (tc2, s2)
      | .error err => .error err

/-- The launch policies of runAsync, mirroring std launch async and
deferred. -/
inductive Policy where
  | Async
  | Deferred
deriving DecidableEq, Repr

def Policy.isAsync : Policy → Bool
  | .Async => true
  | .Deferred => false

/-- Modelled from the spec: the reader handle tag of the design notes
(section 9): blocking-on-destruction is a boolean carried by readers
produced by runAsync under the pooled-async policy, not a property of
readers in general. -/
structure ResultReader where
  fromPooledAsync : Bool
deriving DecidableEq, Repr

/-- Modelled from the spec: destruction of a reader blocks exactly when the
reader carries the pooled-async tag and the underlying task has not yet
completed (the state is not ready); every other reader destructor returns
at once. -/
def ResultReader.destructorBlocks {T : Type} (r : ResultReader)
    (s : SharedState T) : Bool :=
  r.fromPooledAsync && !s.ready

/-- Modelled from the spec: the handle bundle returned by runAsync
(section 4.5): the task cell, the shared state, the chosen policy and the
reader. -/
structure AsyncHandle (T : Type) where
  task : TaskCell T
  state : SharedState T
  policy : Policy
  reader : ResultReader

/-- Modelled from the spec: runAsync constructs SharedState, ResultWriter
and TaskCell, retrieves the reader, and either submits the cell to the pool
(Async) or stores it unsubmitted (Deferred); in both cases the task is not
yet invoked when runAsync returns, and only an Async reader carries the
blocking-destructor tag. -/
def runAsync {T : Type} (p : Policy) (f : Unit → Except Nat T) : AsyncHandle T :=
  { task := { callable := f, invoked := false, execCount := 0 }
    state := { SharedState.init T with readerTaken := true }
    policy := p
    reader := { fromPooledAsync := p.isAsync } }

/-- Modelled from the spec: a pool worker executing the submitted task of an
Async handle.  A Deferred handle was never submitted, so the pool leaves it
alone. -/
def AsyncHandle.poolStep {T : Type} (h : AsyncHandle T) : AsyncHandle T :=
  if h.policy.isAsync && !h.task.invoked then
    match h.task.invoke h.state with
    | .ok (tc2, s2) => { h with task := tc2, state := s2 }
    | .error _ => h
  else h

/-- Modelled from the spec: get on the reader of a runAsync handle.  For
Deferred it triggers synchronous invocation on the calling thread the first
time, guarded by the invoked flag against double invocation; on later calls
(and for Async, once the pool has made the state ready) it takes the stored
outcome. -/
def AsyncHandle.get {T : Type} (h : AsyncHandle T) :
    AsyncHandle T × Option (Except FailureKind T) :=
  match h.policy with
  | .Deferred =>
    if h.task.invoked then (h, h.state.take)
    else
      match h.task.invoke h.state with
      | .ok (tc2, s2) => ({ h with task := tc2, state := s2 }, s2.take)
      | .error _ => (h, none)
  | .Async => (h, h.state.take)

/-- The task queue of the ThreadPool in src/async/promise_future.cpp: a std
queue, so enqueue appends at the back.  Work items are task cells paired
with their shared state, tagged with a submission id so that completion
order can be compared with submission order. -/
def ThreadPool.enqueue {T : Type} (tasks : List (Nat × TaskCell T × SharedState T))
    (item : Nat × TaskCell T × SharedState T) :
    List (Nat × TaskCell T × SharedState T) :=
  tasks ++ [item]

/-- The worker loop of the ThreadPool in src/async/promise_future.cpp: the
worker repeatedly waits until the queue is non-empty, removes exactly one
item from the queue front (std queue pop removes the front element; the
snippet writes top, which std queue does not have — the spec adopts the
FIFO reading as canonical), releases the lock and executes the item.  For a
single worker and a finite submission sequence this yields the completions
in execution order. -/
def ThreadPool.workerRun {T : Type} :
    List (Nat × TaskCell T × SharedState T) → List (Nat × SharedState T)
  | [] => []
  | (i, tc, s) :: rest =>
    match tc.invoke s with
    | .ok (_, s2) => (i, s2) :: ThreadPool.workerRun rest
    | .error _ => (i, s) :: ThreadPool.workerRun rest

/-- The exceptions the driver program distinguishes: std future_error (with
a message and an error code), any other std exception (with a message), and
everything else. -/
inductive CppException where
  | futureError (what : String) (code : String)
  | stdException (what : String)
  | unknown
deriving DecidableEq, Repr

/-- The main function of src/async/promise_future.cpp: it runs test inside a
try block, catching std future_error first, then std exception, then
anything else, each handler printing a report line; after a handler runs,
control falls off the end of main, which gives process exit code 0.
Embedded as a function of the outcome of test, returning the exit code and
the lines printed by the handlers. -/
def mainFn (r : Except CppException Int) : Int × List String :=
  match r with
  | .ok n => (n, [])
  | .error (.futureError w c) => (0, ["Future error: " ++ w ++ " / " ++ c])
  | .error (.stdException w) => (0, ["Standard exception: " ++ w])
  | .error .unknown => (0, ["Unknown exception."])

end CppConcurrency

namespace CppConcurrency

/-- C1: for every value v, setValue v on a writer followed by get on the
corresponding reader returns exactly v. -/
theorem c1_round_trip {T : Type} (v : T) :
    roundTrip v = some (.ok v) := by
  rfl

/-- C2: once a writer has satisfied its state, a second setValue or
setFailure call fails with AlreadySatisfied, and the outcome stored by the
first call is preserved unchanged in the state (write-once). -/
theorem c2_one_shot {T : Type} (w : ResultWriter) (s s' : SharedState T)
    (o : Outcome T) (v2 : T) (e : FailureKind)
    (hw : w.hasState = true) (h : s.write o = .ok s') :
    w.setValue s' v2 = some (.error .AlreadySatisfied) ∧
    w.setFailure s' e = some (.error .AlreadySatisfied) ∧
    s'.slot = o.toSlot ∧ s'.ready = true := by
  unfold SharedState.write at h
  by_cases hr : s.ready
  · simp [hr] at h
  · simp only [hr, Bool.false_eq_true, if_false, Except.ok.injEq] at h
    subst h
    refine ⟨?_, ?_, rfl, rfl⟩ <;>
      simp [ResultWriter.setValue, ResultWriter.setFailure, SharedState.write, hw]

/-- C2 witness: the concluding facts of c2_one_shot at the concrete run
where a fresh writer stores 5 into a fresh state. -/
theorem c2_one_shot_witness :
    ResultWriter.fresh.setValue
        ({ slot := .value 5, ready := true, readerTaken := false } : SharedState Int) 6 =
      some (.error .AlreadySatisfied) ∧
    ResultWriter.fresh.setFailure
        ({ slot := .value 5, ready := true, readerTaken := false } : SharedState Int)
        .BrokenWriter = some (.error .AlreadySatisfied) ∧
    ({ slot := .value 5, ready := true, readerTaken := false } : SharedState Int).slot
      = (Outcome.value 5).toSlot ∧
    ({ slot := .value 5, ready := true, readerTaken := false } : SharedState Int).ready
      = true :=
  c2_one_shot ResultWriter.fresh (SharedState.init Int)
    { slot := .value 5, ready := true, readerTaken := false }
    (.value 5) 6 .BrokenWriter rfl rfl

/-- C3: destroying a writer that still holds its state, after the reader has
been retrieved (Active) but before any outcome was written, stores a
BrokenWriter failure, marks the state ready, and makes the paired reader
observe that failure on get. -/
theorem c3_abandonment {T : Type} (w : ResultWriter) (s : SharedState T)
    (hw : w.hasState = true) (hA : s.readerTaken = true) (hN : s.ready = false) :
    (w.destroy s).slot = .failure .BrokenWriter ∧
    (w.destroy s).ready = true ∧
    (w.destroy s).take = some (.error .BrokenWriter) := by
  unfold ResultWriter.destroy
  simp [hw, hA, hN, SharedState.take]

/-- C3 witness: the Case 6 configuration, a fresh state whose reader was
retrieved and into which nothing was written, abandoned by a fresh writer. -/
theorem c3_abandonment_witness :
    ((ResultWriter.fresh.destroy
        ({ slot := .absent, ready := false, readerTaken := true } : SharedState Int)).slot
      = .failure .BrokenWriter) ∧
    ((ResultWriter.fresh.destroy
        ({ slot := .absent, ready := false, readerTaken := true } : SharedState Int)).ready
      = true) ∧
    ((ResultWriter.fresh.destroy
        ({ slot := .absent, ready := false, readerTaken := true } : SharedState Int)).take
      = some (.error .BrokenWriter)) :=
  c3_abandonment ResultWriter.fresh
    { slot := .absent, ready := false, readerTaken := true } rfl rfl rfl

/-- C7: the first getReader call on a fresh writer succeeds and marks the
reader as taken; any getReader call on a state whose reader was already
taken fails with ReaderAlreadyRetrieved. -/
theorem c7_single_retrieval {T : Type} (s1 s : SharedState T)
    (h : (SharedState.init T).getReader = .ok s1)
    (hs : s.readerTaken = true) :
    s1.readerTaken = true ∧
    s1.getReader = .error .ReaderAlreadyRetrieved ∧
    s.getReader = .error .ReaderAlreadyRetrieved := by
  unfold SharedState.getReader SharedState.init at h
  simp only [Bool.false_eq_true, if_false, Except.ok.injEq] at h
  subst h
  refine ⟨rfl, rfl, ?_⟩
  unfold SharedState.getReader
  simp [hs]

/-- C7 witness: the concrete Case 3 run, two getReader calls on the same
fresh writer, the second failing. -/
theorem c7_single_retrieval_witness :
    ({ slot := .absent, ready := false, readerTaken := true } : SharedState Int).readerTaken
      = true ∧
    ({ slot := .absent, ready := false, readerTaken := true } : SharedState Int).getReader
      = .error .ReaderAlreadyRetrieved ∧
    ({ slot := .absent, ready := false, readerTaken := true } : SharedState Int).getReader
      = .error .ReaderAlreadyRetrieved :=
  c7_single_retrieval
    { slot := .absent, ready := false, readerTaken := true }
    { slot := .absent, ready := false, readerTaken := true } rfl rfl

/-- C9: moving a writer preserves its association with the already retrieved
reader: writing v through the moved-to handle makes get on the original
reader return v, and the moved-from handle no longer references the
state. -/
theorem c9_move_preserves_association (v : Int) :
    moveScenario v = some (.ok v) ∧
    (ResultWriter.fresh.move).1.hasState = false := by
  exact ⟨rfl, rfl⟩

/-- Folding enqueue over a submission sequence appends it, in order, behind
the items already queued. -/
theorem ThreadPool.foldl_enqueue {T : Type}
    (items acc : List (Nat × TaskCell T × SharedState T)) :
    items.foldl ThreadPool.enqueue acc = acc ++ items := by
  induction items generalizing acc with
  | nil => simp
  | cons x xs ih =>
    simp only [List.foldl_cons, ThreadPool.enqueue, ih, List.append_assoc,
      List.singleton_append]

/-- The worker completes the queued items with their submission ids in queue
order, one at a time. -/
theorem ThreadPool.workerRun_ids {T : Type}
    (q : List (Nat × TaskCell T × SharedState T)) :
    (ThreadPool.workerRun q).map Prod.fst = q.map Prod.fst := by
  induction q with
  | nil => rfl
  | cons x xs ih =>
    obtain ⟨i, tc, s⟩ := x
    cases htc : tc.invoke s with
    | ok p =>
      obtain ⟨tc2, s2⟩ := p
      simp [ThreadPool.workerRun, htc, ih]
    | error e =>
      simp [ThreadPool.workerRun, htc, ih]

/-- C4: a single-worker pool dequeues one item at a time from the queue
front, so tasks submitted in order T1, T2, T3 complete in submission order;
in general the completion order of any finite submission sequence is the
submission order. -/
theorem c4_pool_fifo {T : Type} (t1 t2 t3 : TaskCell T)
    (s1 s2 s3 : SharedState T)
    (items : List (Nat × TaskCell T × SharedState T)) :
    (ThreadPool.workerRun
        (ThreadPool.enqueue
          (ThreadPool.enqueue (ThreadPool.enqueue [] (1, t1, s1)) (2, t2, s2))
          (3, t3, s3))).map Prod.fst = [1, 2, 3] ∧
    (ThreadPool.workerRun (items.foldl ThreadPool.enqueue [])).map Prod.fst =
      items.map Prod.fst := by
  constructor
  · rw [ThreadPool.workerRun_ids]
    rfl
  · rw [ThreadPool.foldl_enqueue, List.nil_append, ThreadPool.workerRun_ids]

/-- C5: under the Deferred policy the callable is not executed at submission
time, the first get executes it synchronously exactly once, and a repeated
get does not execute it again and reproduces the same outcome. -/
theorem c5_deferred_laziness {T : Type} (f : Unit → Except Nat T) :
    (runAsync .Deferred f).task.execCount = 0 ∧
    (runAsync .Deferred f).get.1.task.execCount = 1 ∧
    (runAsync .Deferred f).get.1.get.1.task.execCount = 1 ∧
    (runAsync .Deferred f).get.1.get.2 = (runAsync .Deferred f).get.2 := by
  cases h : f () <;>
    simp [runAsync, AsyncHandle.get, TaskCell.invoke, SharedState.write,
      SharedState.take, SharedState.init, Policy.isAsync, h]

/-- C6: a failure raised by the wrapped callable is captured by invoke,
which succeeds rather than propagating it, stores CallableFailure into the
shared state through setFailure, and the failure is re-raised only when the
reader later takes the outcome. -/
theorem c6_callable_failure {T : Type} (f : Unit → Except Nat T) (p : Nat)
    (s : SharedState T) (hf : f () = .error p) (hs : s.ready = false) :
    (TaskCell.mk f false 0).invoke s =
      .ok ({ callable := f, invoked := true, execCount := 1 },
        { s with slot := .failure (.CallableFailure p), ready := true }) ∧
    SharedState.take (T := T)
        { s with slot := .failure (.CallableFailure p), ready := true } =
      some (.error (.CallableFailure p)) := by
  constructor
  · simp [TaskCell.invoke, hf, SharedState.write, hs, Outcome.toSlot]
  · simp [SharedState.take]

/-- C6 witness: a callable raising payload 7 over a fresh state. -/
theorem c6_callable_failure_witness :
    (TaskCell.mk (fun _ => Except.error 7) false 0).invoke (SharedState.init Int) =
      .ok ({ callable := fun _ => Except.error 7, invoked := true, execCount := 1 },
        { SharedState.init Int with
            slot := .failure (.CallableFailure 7), ready := true }) ∧
    SharedState.take (T := Int)
        { SharedState.init Int with
            slot := .failure (.CallableFailure 7), ready := true } =
      some (.error (.CallableFailure 7)) :=
  c6_callable_failure (fun _ => Except.error 7) 7 (SharedState.init Int) rfl rfl

/-- C8: a reader without the pooled-async tag never blocks on destruction;
runAsync under Deferred produces an untagged reader, runAsync under Async
produces a tagged one whose destructor blocks while the task is incomplete
and no longer blocks once the pool has completed it. -/
theorem c8_destructor_blocking {T : Type} (f : Unit → Except Nat T)
    (r : ResultReader) (s : SharedState T) (hr : r.fromPooledAsync = false) :
    r.destructorBlocks s = false ∧
    (runAsync (T := T) .Deferred f).reader.fromPooledAsync = false ∧
    (runAsync (T := T) .Async f).reader.fromPooledAsync = true ∧
    ResultReader.destructorBlocks (runAsync .Async f).reader
      (runAsync .Async f).state = true ∧
    ResultReader.destructorBlocks (runAsync .Async f).poolStep.reader
      (runAsync .Async f).poolStep.state = false := by
  refine ⟨?_, rfl, rfl, rfl, ?_⟩
  · simp [ResultReader.destructorBlocks, hr]
  · cases h : f () <;>
      simp [runAsync, AsyncHandle.poolStep, TaskCell.invoke, SharedState.write,
        SharedState.init, Policy.isAsync, ResultReader.destructorBlocks, h]

/-- C8 witness: the facts of c8_destructor_blocking at a concrete callable
and an untagged reader over a fresh state. -/
theorem c8_destructor_blocking_witness :
    ResultReader.destructorBlocks { fromPooledAsync := false }
      (SharedState.init Int) = false ∧
    (runAsync (T := Int) .Deferred (fun _ => Except.ok 42)).reader.fromPooledAsync
      = false ∧
    (runAsync (T := Int) .Async (fun _ => Except.ok 42)).reader.fromPooledAsync
      = true ∧
    ResultReader.destructorBlocks
      (runAsync (T := Int) .Async (fun _ => Except.ok 42)).reader
      (runAsync (T := Int) .Async (fun _ => Except.ok 42)).state = true ∧
    ResultReader.destructorBlocks
      (runAsync (T := Int) .Async (fun _ => Except.ok 42)).poolStep.reader
      (runAsync (T := Int) .Async (fun _ => Except.ok 42)).poolStep.state = false :=
  c8_destructor_blocking (fun _ => Except.ok 42) { fromPooledAsync := false }
    (SharedState.init Int) rfl

/-- C10: every exception escaping test is caught by one of the three
handlers of main, exactly one report line is printed, and main then falls
off its end with exit code 0 — the same exit code as a successful run of
test returning 0. -/
theorem c10_main_catches_all (e : CppException) :
    (mainFn (.error e)).1 = 0 ∧
    (mainFn (.error e)).2.length = 1 ∧
    (mainFn (.error e)).1 = (mainFn (.ok 0)).1 := by
  cases e <;> exact ⟨rfl, rfl, rfl⟩

end CppConcurrency
